import Mathlib

/-!
Verification of `src/app/src/main/python/keyboard_predictor.py` (repository
avd1729/Textify) against its natural-language specification.

The file `ngram_model.py` that defines `NGramModel` is imported by the source
but is not part of the provided sources; where a claim depends on the model's
behaviour, the model is modelled from the spec (each such definition says so
in its doc comment).  Everything about `KeyboardPredictor` itself is a direct
shallow embedding of `keyboard_predictor.py`:

* filesystem and pickle I/O are represented by oracle parameters
  (`writeRaises : Bool` for whether the underlying write raises, and an
  `Except LoadErr NGramModel` for the outcome of `NGramModel.load`);
* a Python method that can raise is embedded with an explicit `raised` flag
  in its result (a raised exception propagates to the caller and any
  mutation performed before the raise is kept, exactly as in CPython);
* `save_model`'s body is a `try/except Exception` block, so its embedding is
  a total function on the in-memory state; a ghost counter `saveCalls`
  records each invocation so that "the model was (not) persisted" is
  expressible.
-/

namespace Textify

/-- Modelled from the spec (§3, §9): the source's vocabulary is dynamically
typed — "a plain set versus a count-mapping (observed across two
snapshot-producing code paths)".  `keyboard_predictor.py` itself tests for
this with `isinstance(self.model.vocabulary, set)` and
`hasattr(self.model.vocabulary, 'items')`, so the embedding keeps both
run-time shapes. -/
inductive Vocab where
  | set (tokens : List String)
  | counts (table : List (String × Nat))
  deriving DecidableEq, Repr

/-- Add one observation of a token to a vocabulary: insert into a set,
bump the count in a count-mapping (absent tokens start at 1). -/
def bumpCount : List (String × Nat) → String → List (String × Nat)
  | [], t => [(t, 1)]
  | (k, v) :: rest, t =>
      if k = t then (k, v + 1) :: rest else (k, v) :: bumpCount rest t

/-- Record one occurrence of a token in the vocabulary, respecting its
run-time shape. -/
def Vocab.observe : Vocab → String → Vocab
  | .set ts, t => .set (if t ∈ ts then ts else ts ++ [t])
  | .counts l, t => .counts (bumpCount l t)

/-- Number of distinct tokens in the vocabulary (the source logs
`len(self.model.vocabulary)`; the spec calls it `word_count`). -/
def Vocab.size : Vocab → Nat
  | .set ts => ts.length
  | .counts l => l.length

/-- The n-gram table: each context (a list of up to n−1 preceding tokens) is
mapped to a table of next-token counts.  `keyboard_predictor.py` reads it as
`self.model.models` (a dict of dicts). -/
def Models : Type := List (List String × List (String × Nat))

instance : DecidableEq Models := by unfold Models; infer_instance

/-- Bump the count of `tok` after context `ctx` in the n-gram table. -/
def bumpNgram : Models → List String → String → Models
  | [], ctx, tok => [(ctx, [(tok, 1)])]
  | (c, nexts) :: rest, ctx, tok =>
      if c = ctx then (c, bumpCount nexts tok) :: rest
      else (c, nexts) :: bumpNgram rest ctx tok

/-- Modelled from the spec (§4.1): the tokenizer of the absent
`ngram_model.py` — lowercase normalisation, punctuation treated as a token
boundary and not emitted, whitespace splitting. -/
def tokenize (text : String) : List String :=
  (((text.toLower).toList.map
      (fun c => if c.isAlpha ∨ c.isDigit then c else ' ')).asString.splitOn
    " ").filter (fun t => t ≠ "")

/-- Modelled from the spec (§4.1): one pass of training — for every token
position and every context length k from 0 to n−1 bounded by the number of
preceding tokens, bump the (context, token) count. -/
def trainTokens (n : Nat) : List String → Models → List String → Models
  | _, models, [] => models
  | prev, models, tok :: rest =>
      let models' :=
        (List.range n).foldl
          (fun acc k =>
            if k ≤ prev.length then
              bumpNgram acc (prev.drop (prev.length - k)) tok
            else acc)
          models
      trainTokens n (prev ++ [tok]) models' rest

/-- Modelled from the spec: the `NGramModel` of the absent `ngram_model.py`,
restricted to the fields `keyboard_predictor.py` reads (`n`, `smoothing`,
`models`, `word_count`, `total_words`, `vocabulary`), plus a ghost field
`trainedTexts` recording the sequence of texts passed to `train`, used to
state "train was called exactly once on this text". -/
structure NGramModel where
  n : Nat
  smoothing : ℚ
  models : Models
  word_count : Nat
  total_words : Nat
  vocabulary : Vocab
  trainedTexts : List String
  deriving DecidableEq

/-- Modelled from the spec (§9: the smoothing constant is hardcoded in the
source): a freshly constructed model of order `n` with empty tables. -/
def NGramModel.fresh (n : Nat) : NGramModel :=
  { n := n
    smoothing := (1 : ℚ) / 10
    models := []
    word_count := 0
    total_words := 0
    vocabulary := .counts []
    trainedTexts := [] }

/-- Modelled from the spec (§4.1): `NGramModel.train` — cumulative,
deterministic count updating.  Tokenizes, updates the n-gram table for every
context length, counts each token occurrence once in the vocabulary and in
`total_words`, refreshes the distinct-token total, and (ghost) appends the
raw text to `trainedTexts`. -/
def NGramModel.train (m : NGramModel) (text : String) : NGramModel :=
  let toks := tokenize text
  let vocab := toks.foldl Vocab.observe m.vocabulary
  { m with
    models := trainTokens m.n [] m.models toks
    vocabulary := vocab
    word_count := vocab.size
    total_words := m.total_words + toks.length
    trainedTexts := m.trainedTexts ++ [text] }

/-- Failure of `NGramModel.load` (pickle/deserialization errors; the spec
calls the structural case `CorruptSnapshot`). -/
inductive LoadErr where
  | corruptSnapshot
  | ioError
  deriving DecidableEq, Repr

/-- The in-memory state of a `KeyboardPredictor` object
(`keyboard_predictor.py`): the held model, the configured model path, the
user-history buffer, and a ghost counter of `save_model` invocations (the
method itself has no in-memory effect, so the counter is the only way to
observe that persistence was attempted). -/
structure KeyboardPredictor where
  model : NGramModel
  model_path : String
  user_history : List String
  saveCalls : Nat
  deriving DecidableEq

/-- Result of a Python method call that can raise: the state of `self` when
the call returns or the exception propagates, plus whether it raised. -/
structure Outcome where
  state : KeyboardPredictor
  raised : Bool
  deriving DecidableEq

/-- The body of `save_model`'s `try` block (directory creation, the actual
`self.model.save(...)` write, existence logging): pure I/O, so its only
observable is whether it raises, given by the oracle `writeRaises`. -/
def save_model_body (writeRaises : Bool) : Except LoadErr Unit :=
  if writeRaises then .error .ioError else .ok ()

/-- `KeyboardPredictor.save_model` (lines 102–124): the whole body is inside
`try: ... except Exception as e: print(...)`, so the method never raises and
never changes the in-memory model or buffer; the ghost counter records the
persistence attempt. -/
def save_model (writeRaises : Bool) (p : KeyboardPredictor) : KeyboardPredictor :=
  match save_model_body writeRaises with
  | .ok _ => { p with saveCalls := p.saveCalls + 1 }
  | .error _ => { p with saveCalls := p.saveCalls + 1 }

/-- `KeyboardPredictor.train_on_history` (lines 74–93): if the buffer is
empty, return immediately; otherwise join the buffer with a single space,
call `self.model.train` on the joined text (if that raises, the exception
propagates with no prior mutation of `self`), then `save_model` (which never
raises), then clear the buffer.  `trainRaises` is the oracle for whether
`model.train` raises. -/
def train_on_history (trainRaises writeRaises : Bool)
    (p : KeyboardPredictor) : Outcome :=
  if p.user_history = [] then ⟨p, false⟩
  else
    let all_text := String.intercalate " " p.user_history
    if trainRaises then ⟨p, true⟩
    else
      let p₁ := { p with model := p.model.train all_text }
      let p₂ := save_model writeRaises p₁
      ⟨{ p₂ with user_history := [] }, false⟩

/-- `KeyboardPredictor.add_to_history` (lines 61–72): append the text to the
buffer; if the buffer has reached 100 entries, call `train_on_history`. -/
def add_to_history (trainRaises writeRaises : Bool)
    (p : KeyboardPredictor) (text : String) : Outcome :=
  let p' := { p with user_history := p.user_history ++ [text] }
  if 100 ≤ p'.user_history.length then
    train_on_history trainRaises writeRaises p'
  else ⟨p', false⟩

/-- Observable outcome of a `load_model` call: the state of `self`
afterwards, the boolean return value, and whether the call let an exception
propagate to the caller. -/
structure LoadOutcome where
  state : KeyboardPredictor
  retVal : Bool
  raised : Bool
  deriving DecidableEq

/-- `KeyboardPredictor.load_model` (lines 155–172): the whole body is inside
`try/except Exception`.  On success (`loadResult = .ok m`) the new model is
assigned, `save_model` is called, and `True` is returned; on any exception
the handler prints and returns `False` — the error is never re-raised
(`raised` is `false` on every path), and since the RHS of
`self.model = NGramModel.load(...)` raised before the assignment, `self` is
unchanged. -/
def load_model (loadResult : Except LoadErr NGramModel) (writeRaises : Bool)
    (p : KeyboardPredictor) : LoadOutcome :=
  match loadResult with
  | .ok m => ⟨save_model writeRaises { p with model := m }, true, false⟩
  | .error _ => ⟨p, false, false⟩

/-- The three situations `KeyboardPredictor.__init__` distinguishes for its
`model_path` argument: no path given (`None`), a path for which
`os.path.exists` is false, and an existing path together with the outcome of
`NGramModel.load` on it. -/
inductive PathCase where
  | noPath
  | missing (path : String)
  | present (path : String) (loadResult : Except LoadErr NGramModel)

/-- Python's `model_path or "keyboard_model.pkl"` (line 54): the empty
string is falsy. -/
def orDefaultPath (s : String) : String :=
  if s = "" then "keyboard_model.pkl" else s

/-- `KeyboardPredictor.__init__` (lines 12–59): if `model_path` is given and
exists, try `NGramModel.load` and fall back to a fresh model of order `n` on
failure; otherwise construct a fresh model of order `n` and pre-train it on
`sample_texts` when provided (pre-training happens only in this branch).
Afterwards set `model_path` (defaulting the falsy cases to
"keyboard_model.pkl"), start with an empty history buffer, and call
`save_model` once. -/
def initPredictor (pc : PathCase) (n : Nat := 3)
    (sample_texts : List String := []) (writeRaises : Bool := false) :
    KeyboardPredictor :=
  let model :=
    match pc with
    | .present _ (.ok m) => m
    | .present _ (.error _) => NGramModel.fresh n
    | .noPath => sample_texts.foldl NGramModel.train (NGramModel.fresh n)
    | .missing _ => sample_texts.foldl NGramModel.train (NGramModel.fresh n)
  let path :=
    match pc with
    | .noPath => "keyboard_model.pkl"
    | .missing s => orDefaultPath s
    | .present s _ => orDefaultPath s
  save_model writeRaises
    { model := model, model_path := path, user_history := [], saveCalls := 0 }

/-- The dictionary `export_data` built by `export_for_aggregation`
(lines 141–148): the model's fields, with the n-gram table copied to plain
dicts and the vocabulary coerced to a count-mapping. -/
structure ExportData where
  n : Nat
  smoothing : ℚ
  models : Models
  word_count : Nat
  total_words : Nat
  vocabulary : List (String × Nat)
  deriving DecidableEq

/-- Line 147 of the source: `dict(self.model.vocabulary) if
hasattr(self.model.vocabulary, 'items') else {word: 1 for word in
self.model.vocabulary}` — a count-mapping is copied as is, a set becomes a
mapping sending every token to 1. -/
def exportVocab : Vocab → List (String × Nat)
  | .counts l => l
  | .set ts => ts.map (fun t => (t, 1))

/-- `KeyboardPredictor.export_for_aggregation` (lines 135–153): compute the
export path (`model_path` with ".pkl" replaced by "_export.pkl" when none is
given), build `export_data` from the model's fields, pickle it to the path,
and return the path.  The method assigns no attribute of `self`, so the
returned session state equals the input. -/
def export_for_aggregation (p : KeyboardPredictor)
    (export_path : Option String) : String × ExportData × KeyboardPredictor :=
  let path :=
    match export_path with
    | some s => s
    | none => p.model_path.replace ".pkl" "_export.pkl"
  let data : ExportData :=
    { n := p.model.n
      smoothing := p.model.smoothing
      models := p.model.models
      word_count := p.model.word_count
      total_words := p.model.total_words
      vocabulary := exportVocab p.model.vocabulary }
  (path, data, p)

/-- `KeyboardPredictor.prepare_for_export` (lines 126–133): if the model's
vocabulary is a set, reassign it in place as a dict mapping every word to 1;
always return `True`. -/
def prepare_for_export (p : KeyboardPredictor) : KeyboardPredictor × Bool :=
  match p.model.vocabulary with
  | .set ts =>
      ({ p with model :=
          { p.model with vocabulary := .counts (ts.map (fun t => (t, 1))) } },
        true)
  | .counts _ => (p, true)

/-- Modelled from the spec (§4.1, §3): the redesign's `LanguageModel` as far
as `merge` is concerned — order, smoothing, per-token vocabulary counts,
per-(context, token) n-gram counts, and the two running totals.  No code for
`merge` exists under the sources (`ngram_model.py` is absent), so the claim
about merge is settled against this spec-modelled definition. -/
structure LanguageModel where
  order : Nat
  smoothing : ℚ
  vocabulary : String → Nat
  ngrams : List String → String → Nat
  word_count : Nat
  total_words : Nat

/-- `IncompatibleOrder` (spec §7): merging models of different order fails. -/
inductive MergeErr where
  | incompatibleOrder
  deriving DecidableEq, Repr

/-- Modelled from the spec (§4.1 merge): requires equal orders, sums the
n-gram counts per (context, next-token) pair, sums vocabulary counts per
token, and sums `total_words` and `word_count` field-wise. -/
def LanguageModel.merge (m other : LanguageModel) :
    Except MergeErr LanguageModel :=
  if other.order = m.order then
    .ok
      { order := m.order
        smoothing := m.smoothing
        vocabulary := fun t => m.vocabulary t + other.vocabulary t
        ngrams := fun c t => m.ngrams c t + other.ngrams c t
        word_count := m.word_count + other.word_count
        total_words := m.total_words + other.total_words }
  else .error .incompatibleOrder

/-- A small concrete model used by witnesses. -/
def lmA : LanguageModel :=
  { order := 2
    smoothing := 1
    vocabulary := fun t => if t = "the" then 2 else 0
    ngrams := fun c t => if c = ["the"] ∧ t = "cat" then 2 else 0
    word_count := 1
    total_words := 2 }

/-- A second concrete model used by witnesses. -/
def lmB : LanguageModel :=
  { order := 2
    smoothing := 1
    vocabulary := fun t => if t = "cat" then 1 else 0
    ngrams := fun c t => if c = [] ∧ t = "cat" then 1 else 0
    word_count := 1
    total_words := 1 }

/-- A third concrete model used by witnesses. -/
def lmC : LanguageModel :=
  { order := 2
    smoothing := 1
    vocabulary := fun t => if t = "sat" then 3 else 0
    ngrams := fun c t => if c = ["cat"] ∧ t = "sat" then 3 else 0
    word_count := 1
    total_words := 3 }

/-- A concrete session with one buffered entry, used by witnesses and
counterexamples. -/
def sampleSession : KeyboardPredictor :=
  { model := NGramModel.fresh 3
    model_path := "keyboard_model.pkl"
    user_history := ["hello world"]
    saveCalls := 0 }

/-- A concrete session whose buffer holds 99 entries, one ingest away from
the flush threshold. -/
def fullSession : KeyboardPredictor :=
  { model := NGramModel.fresh 3
    model_path := "keyboard_model.pkl"
    user_history := List.replicate 99 "hi"
    saveCalls := 0 }

/-- A concrete session with an empty buffer. -/
def emptySession : KeyboardPredictor :=
  { model := NGramModel.fresh 3
    model_path := "keyboard_model.pkl"
    user_history := []
    saveCalls := 0 }

/-- A concrete session whose model carries the legacy set-shaped
vocabulary. -/
def setVocabSession : KeyboardPredictor :=
  { model := { NGramModel.fresh 2 with vocabulary := .set ["hi", "yo"] }
    model_path := "m.pkl"
    user_history := []
    saveCalls := 0 }

/-- Helper: whatever the persistence oracle says, `save_model` only bumps
the ghost invocation counter — both arms of the `match` on
`save_model_body` leave the in-memory state alone. -/
theorem save_model_eq (w : Bool) (p : KeyboardPredictor) :
    save_model w p = { p with saveCalls := p.saveCalls + 1 } := by
  cases w <;> rfl

/-- C1 counterexample: with a non-empty buffer, a flush whose training
succeeds but whose persistence write raises (`writeRaises = true`) still
returns normally and clears the history buffer — the persistence failure is
swallowed inside `save_model`, so the buffered text is NOT retried, contrary
to the claim that a failing persistence step leaves the buffer intact. -/
theorem flush_clears_buffer_despite_persistence_failure :
    sampleSession.user_history ≠ [] ∧
    (train_on_history false true sampleSession).raised = false ∧
    (train_on_history false true sampleSession).state.user_history = [] := by
  refine ⟨by decide, rfl, rfl⟩

/-- C1 (amended): if the training call raises, the flush propagates the
exception and leaves the session — in particular the history buffer —
unchanged, so the same text is retrained on the next flush attempt; but if
training succeeds, the buffer is cleared regardless of whether the
persistence step fails, because `save_model` catches persistence failures
internally and never raises. -/
theorem train_on_history_atomicity (w : Bool) (p : KeyboardPredictor)
    (h : p.user_history ≠ []) :
    train_on_history true w p = ⟨p, true⟩ ∧
    (train_on_history false w p).raised = false ∧
    (train_on_history false w p).state.user_history = [] := by
  refine ⟨?_, ?_, ?_⟩ <;> simp [train_on_history, h]

/-- Witness for `train_on_history_atomicity` at a concrete session with one
buffered entry and a failing persistence write. -/
theorem train_on_history_atomicity_witness :
    train_on_history true true sampleSession = ⟨sampleSession, true⟩ ∧
    (train_on_history false true sampleSession).raised = false ∧
    (train_on_history false true sampleSession).state.user_history = [] :=
  train_on_history_atomicity true sampleSession (by decide)

/-- C2: ingesting a text that brings the buffer to 100 or more entries
flushes (in the non-raising run `trainRaises = false`): the model is trained
exactly once, on the buffered entries joined with a single space (the ghost
`trainedTexts` log is extended by exactly that one combined text), the model
is persisted (`saveCalls` increases by one), and the buffer is cleared;
below 100 entries the call only appends the text to the buffer. -/
theorem add_to_history_threshold (w : Bool) (p : KeyboardPredictor)
    (text : String) :
    (100 ≤ (p.user_history ++ [text]).length →
      add_to_history false w p text =
        ⟨{ model := p.model.train
              (String.intercalate " " (p.user_history ++ [text]))
           model_path := p.model_path
           user_history := []
           saveCalls := p.saveCalls + 1 }, false⟩) ∧
    ((p.user_history ++ [text]).length < 100 →
      add_to_history false w p text =
        ⟨{ p with user_history := p.user_history ++ [text] }, false⟩) := by
  constructor
  · intro h
    simp only [add_to_history, h, if_pos]
    simp [train_on_history, save_model_eq]
  · intro h
    simp only [add_to_history]
    split
    · next hc =>
        exfalso
        simp only [List.length_append, List.length_cons, List.length_nil]
          at h hc
        omega
    · rfl

/-- Witness for `add_to_history_threshold`: a 99-entry buffer flushes on the
100th ingest, and an empty buffer only appends. -/
theorem add_to_history_threshold_witness :
    (add_to_history false false fullSession "go" =
      ⟨{ model := fullSession.model.train
            (String.intercalate " " (fullSession.user_history ++ ["go"]))
         model_path := fullSession.model_path
         user_history := []
         saveCalls := fullSession.saveCalls + 1 }, false⟩) ∧
    (add_to_history false false emptySession "hi" =
      ⟨{ emptySession with
          user_history := emptySession.user_history ++ ["hi"] }, false⟩) :=
  ⟨(add_to_history_threshold false fullSession "go").1 (by decide),
   (add_to_history_threshold false emptySession "hi").2 (by decide)⟩

/-- C3: when the underlying deserialization fails, `load_model` leaves the
session — and in particular its `model` field — exactly as it was before the
call (the assignment `self.model = NGramModel.load(...)` never executes,
because its right-hand side raised first). -/
theorem load_model_failure_keeps_model (e : LoadErr) (w : Bool)
    (p : KeyboardPredictor) :
    load_model (.error e) w p = ⟨p, false, false⟩ := rfl

/-- C4 counterexample: on a corrupt snapshot, `load_model` returns normally
— `raised = false` — with the substituted success/failure flag `False`; the
deserialization error is consumed by the `except` handler instead of being
surfaced to the caller, refuting the claim. -/
theorem load_model_swallows_error :
    (load_model (.error .corruptSnapshot) false sampleSession).raised
        = false ∧
    (load_model (.error .corruptSnapshot) false sampleSession).retVal
        = false := ⟨rfl, rfl⟩

/-- C4 (amended): `load_model` never propagates the deserialization failure
to its caller; it catches every error internally and reports the outcome
through its boolean return value — `True` exactly when loading succeeded —
leaving the session unchanged on failure. -/
theorem load_model_returns_flag (r : Except LoadErr NGramModel) (w : Bool)
    (p : KeyboardPredictor) :
    (load_model r w p).raised = false ∧
    ((load_model r w p).retVal = true ↔ ∃ m, r = .ok m) ∧
    (∀ e, r = .error e → (load_model r w p).state = p) := by
  cases r <;> simp [load_model]

/-- Witness for `load_model_returns_flag` at a concrete failing load (its
inner hypothesis `r = .error e` discharged at `.corruptSnapshot`). -/
theorem load_model_returns_flag_witness :
    (load_model (.error .ioError) true emptySession).raised = false ∧
    (load_model (.error .ioError) true emptySession).state = emptySession :=
  ⟨(load_model_returns_flag (.error .ioError) true emptySession).1,
   (load_model_returns_flag (.error .ioError) true emptySession).2.2
      .ioError rfl⟩

/-- C5: construction selects the model exactly as claimed — with a present
path whose load succeeds, the session holds the loaded model; with a load
failure, a missing path, or no path at all, it holds a freshly constructed
model of the given order; and the order defaults to 3. -/
theorem initPredictor_model_selection (n : Nat) (w : Bool) :
    (∀ s m, (initPredictor (.present s (.ok m)) n [] w).model = m) ∧
    (∀ s e, (initPredictor (.present s (.error e)) n [] w).model
        = NGramModel.fresh n) ∧
    (∀ s, (initPredictor (.missing s) n [] w).model = NGramModel.fresh n) ∧
    (initPredictor .noPath n [] w).model = NGramModel.fresh n ∧
    (initPredictor .noPath).model = NGramModel.fresh 3 := by
  refine ⟨?_, ?_, ?_, ?_, ?_⟩ <;>
    intros <;> simp [initPredictor, save_model_eq]

/-- C6: `export_for_aggregation` does not mutate local state — it assigns no
attribute of `self`, so after the call the session, and in particular its
model (vocabulary, n-gram tables, totals) and its history buffer, are
exactly as before, in every state including mid-buffer. -/
theorem export_for_aggregation_pure (p : KeyboardPredictor)
    (ep : Option String) :
    (export_for_aggregation p ep).2.2 = p ∧
    (export_for_aggregation p ep).2.2.model = p.model ∧
    (export_for_aggregation p ep).2.2.user_history = p.user_history :=
  ⟨rfl, rfl, rfl⟩

/-- C7: over same-order models, merge is commutative and associative on the
counts — `merge(merge(A,B),C)`, `merge(A,merge(B,C))` and
`merge(merge(A,C),B)` all succeed and produce the same model (identical
vocabulary counts, n-gram counts and totals). -/
theorem merge_counts_comm_assoc (A B C : LanguageModel)
    (hB : B.order = A.order) (hC : C.order = A.order) :
    ∃ M : LanguageModel,
      (A.merge B).bind (fun AB => AB.merge C) = .ok M ∧
      (B.merge C).bind (fun BC => A.merge BC) = .ok M ∧
      (A.merge C).bind (fun AC => AC.merge B) = .ok M := by
  refine ⟨{ order := A.order
            smoothing := A.smoothing
            vocabulary := fun t =>
              A.vocabulary t + B.vocabulary t + C.vocabulary t
            ngrams := fun c t => A.ngrams c t + B.ngrams c t + C.ngrams c t
            word_count := A.word_count + B.word_count + C.word_count
            total_words := A.total_words + B.total_words + C.total_words },
    ?_, ?_, ?_⟩
  all_goals
    simp only [LanguageModel.merge, hB, hC, if_true, Except.bind,
      LanguageModel.mk.injEq, Except.ok.injEq, eq_self_iff_true, true_and,
      and_true]
  all_goals
    refine ⟨funext fun t => by omega,
      funext fun c => funext fun t => by omega, by omega, by omega⟩

/-- Witness for `merge_counts_comm_assoc` at three concrete order-2
models. -/
theorem merge_counts_comm_assoc_witness :
    ∃ M : LanguageModel,
      (lmA.merge lmB).bind (fun AB => AB.merge lmC) = .ok M ∧
      (lmB.merge lmC).bind (fun BC => lmA.merge BC) = .ok M ∧
      (lmA.merge lmC).bind (fun AC => AC.merge lmB) = .ok M :=
  merge_counts_comm_assoc lmA lmB lmC rfl rfl

/-- C8: flushing with an empty history buffer is a complete no-op — the
session is returned unchanged (same model, so the ghost `trainedTexts` log
shows `train` was not called; same `saveCalls`, so the model was not
persisted; same buffer) and nothing raises. -/
theorem train_on_history_empty_noop (tr w : Bool) (p : KeyboardPredictor)
    (h : p.user_history = []) :
    train_on_history tr w p = ⟨p, false⟩ := by
  simp [train_on_history, h]

/-- Witness for `train_on_history_empty_noop` at a concrete empty-buffer
session with both oracles raising. -/
theorem train_on_history_empty_noop_witness :
    train_on_history true true emptySession = ⟨emptySession, false⟩ :=
  train_on_history_empty_noop true true emptySession rfl

/-- C9: `save_model` never propagates an exception — its whole body sits in
a `try/except Exception` block, which the embedding reflects by giving it a
total (non-`Except`) return type over every oracle outcome — and it leaves
the in-memory model and history buffer unchanged whether or not the
underlying write raises. -/
theorem save_model_never_raises (w : Bool) (p : KeyboardPredictor) :
    (save_model w p).model = p.model ∧
    (save_model w p).user_history = p.user_history := by
  cases w <;> exact ⟨rfl, rfl⟩

/-- C10: the exported artifact's vocabulary is always a token→count
mapping: a set-shaped vocabulary is coerced to a mapping assigning every
token the count 1 (and `prepare_for_export` rewrites the model's vocabulary
in place under the same rule), while a count-mapping vocabulary is passed
through unchanged (and `prepare_for_export` leaves the session alone). -/
theorem export_vocabulary_coercion (p : KeyboardPredictor)
    (ep : Option String) :
    (∀ ts, p.model.vocabulary = .set ts →
      (export_for_aggregation p ep).2.1.vocabulary
          = ts.map (fun t => (t, 1)) ∧
      (prepare_for_export p).1.model.vocabulary
          = .counts (ts.map (fun t => (t, 1)))) ∧
    (∀ l, p.model.vocabulary = .counts l →
      (export_for_aggregation p ep).2.1.vocabulary = l ∧
      (prepare_for_export p).1 = p) := by
  constructor <;> intro x hx <;>
    simp [export_for_aggregation, exportVocab, prepare_for_export, hx]

/-- Witness for `export_vocabulary_coercion`: a session with a set-shaped
vocabulary is coerced token↦1, and a fresh (count-mapping) session is passed
through untouched. -/
theorem export_vocabulary_coercion_witness :
    ((export_for_aggregation setVocabSession none).2.1.vocabulary
        = [("hi", 1), ("yo", 1)] ∧
      (prepare_for_export setVocabSession).1.model.vocabulary
        = .counts [("hi", 1), ("yo", 1)]) ∧
    ((export_for_aggregation sampleSession none).2.1.vocabulary = [] ∧
      (prepare_for_export sampleSession).1 = sampleSession) :=
  ⟨(export_vocabulary_coercion setVocabSession none).1 ["hi", "yo"] rfl,
   (export_vocabulary_coercion sampleSession none).2 [] rfl⟩

end Textify
